import Mathlib

/-!
# Visualizador de escalas: scale math, theme, measurement tool

A shallow embedding of `script.js`.  Numbers of the scale math are real
numbers (`Math.pow(2, z)` is `2 ^ z`, `Math.log2` is `Real.logb 2`,
`Math.cos` is `Real.cos`); distances of the measurement tool are rational
numbers; strings, storage and the handlers' state are plain data.
-/

namespace Visualizador

/-! ## Constants -/

/-- Storage key of the theme preference. -/
def THEME_KEY : String := "appTheme"

/-- Storage key of the sheet state. -/
def SHEET_KEY : String := "hudSheet"

/-! ## Scale and zoom (Web Mercator) -/

/-- The builtin `Number.prototype.toFixed` on an exact value below `10^21` in
magnitude: the sign, then the integer `n` nearest to `x * 10^f` (a tie going
to the larger `n`) written in decimal, left-padded with zeros to `f + 1`
digits, with a point before the last `f` digits. -/
def toFixed (x : ℚ) (f : Nat) : String :=
  let s := if x < 0 then "-" else ""
  let x := if x < 0 then -x else x
  let n : Nat := (⌊x * 10 ^ f + 1 / 2⌋).toNat
  let m : List Char := (toString n).data
  if f = 0 then s ++ String.mk m
  else
    let m := List.replicate (f + 1 - m.length) (Char.ofNat 48) ++ m
    let k := m.length
    s ++ String.mk (m.take (k - f)) ++ "." ++ String.mk (m.drop (k - f))

/-- Length text `formatMeters(m)`. -/
def formatMeters (m : ℚ) : String :=
  if m < 1000 then toFixed m 1 ++ " m" else toFixed (m / 1000) 3 ++ " km"

/-! ## Stored preferences -/

/-- Browser storage: `getItem` gives the stored string, or nothing. -/
abbrev Storage := String → Option String

/-- Write of one key: `localStorage.setItem(k, v)`. -/
def Storage.setItem (st : Storage) (k v : String) : Storage :=
  fun key => if key = k then some v else st key

/-- Theme read `getSavedTheme()`; `matchMedia` is absent or answers a query. -/
def getSavedTheme (localStorage : Storage) (matchMedia : Option (String → Bool)) :
    String :=
  let fallback : String :=
    match matchMedia with
    | some mm => if mm "(prefers-color-scheme: light)" then "light" else "dark"
    | none => "dark"
  match localStorage THEME_KEY with
  | some t => if t = "light" ∨ t = "dark" then t else fallback
  | none => fallback

/-- Sheet read `getSheetState()`: the stored string unless it is missing or
empty (the falsy cases of `||`). -/
def getSheetState (localStorage : Storage) : String :=
  match localStorage SHEET_KEY with
  | some v => if v = "" then "expanded" else v
  | none => "expanded"

/-! ## Theme controller -/

/-- The two tile layers of `basemaps`. -/
inductive Basemap where
  | light
  | dark
  deriving DecidableEq

/-- Property lookup `basemaps[theme]`. -/
def basemaps (theme : String) : Option Basemap :=
  if theme = "light" then some Basemap.light
  else if theme = "dark" then some Basemap.dark
  else none

/-- What the theme code reads and writes. -/
structure ThemeState where
  /-- variable `currentTheme` -/
  currentTheme : String
  /-- browser storage -/
  localStorage : Storage
  /-- attribute `data-theme` of the document element -/
  dataTheme : Option String
  /-- text of the theme button, `none` when the page has no such element -/
  btnThemeText : Option String
  /-- which basemap layers are on the map -/
  onMap : Basemap → Bool

/-- Layer removal `map.removeLayer(layer)` on the basemaps. -/
def removeBasemap (onMap : Basemap → Bool) (layer : Basemap) : Basemap → Bool :=
  fun b => if b = layer then false else onMap b

/-- Layer insertion `layer.addTo(map)` on the basemaps. -/
def addBasemap (onMap : Basemap → Bool) (layer : Basemap) : Basemap → Bool :=
  fun b => if b = layer then true else onMap b

/-- Theme write `setThemeAttr(theme)`. -/
def setThemeAttr (theme : String) (s : ThemeState) : ThemeState :=
  { s with
    dataTheme := some theme
    localStorage := s.localStorage.setItem THEME_KEY theme
    btnThemeText :=
      match s.btnThemeText with
      | some _ => some (if theme = "light" then "☀️" else "🌙")
      | none => none }

/-- Start-up lines 68 to 70: read the theme, apply it, add its basemap.
Nothing is returned when `basemaps[currentTheme]` is undefined. -/
def initTheme (localStorage : Storage) (matchMedia : Option (String → Bool))
    (dataTheme : Option String) (btnThemeText : Option String) : Option ThemeState :=
  let currentTheme := getSavedTheme localStorage matchMedia
  let s : ThemeState :=
    setThemeAttr currentTheme
      { currentTheme := currentTheme, localStorage := localStorage,
        dataTheme := dataTheme, btnThemeText := btnThemeText, onMap := fun _ => false }
  match basemaps currentTheme with
  | some layer => some { s with onMap := addBasemap s.onMap layer }
  | none => none

/-- Click handler of the theme button.  Nothing is returned when a looked-up
basemap is undefined. -/
def themeClick (s : ThemeState) : Option ThemeState :=
  let next := if s.currentTheme = "light" then "dark" else "light"
  match basemaps s.currentTheme with
  | none => none
  | some old =>
    let s1 := { s with onMap := removeBasemap s.onMap old }
    match basemaps next with
    | none => none
    | some new =>
      let s2 := { s1 with onMap := addBasemap s1.onMap new }
      let s3 := { s2 with currentTheme := next }
      some (setThemeAttr s3.currentTheme s3)

/-- States of the theme code: after start-up, then after each click. -/
inductive ThemeReachable : ThemeState → Prop where
  | init (localStorage : Storage) (matchMedia : Option (String → Bool))
      (dataTheme : Option String) (btnThemeText : Option String) (s : ThemeState)
      (h : initTheme localStorage matchMedia dataTheme btnThemeText = some s) :
      ThemeReachable s
  | click (s t : ThemeState) (hs : ThemeReachable s) (h : themeClick s = some t) :
      ThemeReachable t

/-! ## Measurement tool -/

/-- A geographic point, as carried by a map click. -/
structure LatLng where
  /-- latitude in degrees -/
  lat : ℚ
  /-- longitude in degrees -/
  lng : ℚ
  deriving DecidableEq

instance : Inhabited LatLng := ⟨⟨0, 0⟩⟩

/-- A circle marker of the map widget: its layer stamp and its position. -/
structure CircleMarker where
  /-- stamp given by the map when the layer is added -/
  id : Nat
  /-- position -/
  latlng : LatLng
  deriving DecidableEq

/-- A polyline of the map widget: its layer stamp and its own copy of the
vertices. -/
structure Polyline where
  /-- stamp given by the map when the layer is added -/
  id : Nat
  /-- vertices -/
  latlngs : List LatLng
  deriving DecidableEq

/-- What the measurement code reads and writes. -/
structure MeasureState where
  /-- variable `measuring` -/
  measuring : Bool
  /-- variable `measureLatLngs` -/
  measureLatLngs : List LatLng
  /-- variable `measureLine` (`none` is `null`) -/
  measureLine : Option Polyline
  /-- variable `measureMarkers` -/
  measureMarkers : List CircleMarker
  /-- text of the element `lenLabel` -/
  lenLabel : String
  /-- class `active` on the measure button -/
  btnMeasureActive : Bool
  /-- class `measuring` on the map element -/
  mapElMeasuring : Bool
  /-- stamps of the overlay layers on the map -/
  mapLayers : List Nat
  /-- counter standing for the fresh stamps the map widget hands out -/
  lastId : Nat
  deriving DecidableEq

/-- Widget call `map.removeLayer(layer)` for the layer with stamp `id`. -/
def removeLayer (id : Nat) (s : MeasureState) : MeasureState :=
  { s with mapLayers := s.mapLayers.filter (fun j => j != id) }

/-- The loop of `recomputeLength`: `L = 0`, then for `i = 1 .. length - 1`
add `map.distance(pts[i-1], pts[i])`. -/
def lengthLoop (distance : LatLng → LatLng → ℚ) (pts : List LatLng) : ℚ :=
  (List.range' 1 (pts.length - 1)).foldl
    (fun L i => L + distance (pts.getD (i - 1) default) (pts.getD i default)) 0

/-- Function `recomputeLength()`. -/
def recomputeLength (distance : LatLng → LatLng → ℚ) (s : MeasureState) :
    MeasureState :=
  let L := lengthLoop distance s.measureLatLngs
  let s := { s with lenLabel := formatMeters L }
  match s.measureLine with
  | some line => { s with measureLine := some { line with latlngs := s.measureLatLngs } }
  | none => s

/-- Function `clearMeasure()`. -/
def clearMeasure (s : MeasureState) : MeasureState :=
  let s := { s with measureLatLngs := [], lenLabel := "0 m" }
  let s := match s.measureLine with
    | some line => { removeLayer line.id s with measureLine := none }
    | none => s
  let s := s.measureMarkers.foldl (fun st m => removeLayer m.id st) s
  { s with measureMarkers := [] }

/-- Click handler of the measure button. -/
def btnMeasureClick (s : MeasureState) : MeasureState :=
  let s := { s with measuring := !s.measuring }
  let s := { s with btnMeasureActive := s.measuring }
  { s with mapElMeasuring := s.measuring }

/-- Click handler of the clear button. -/
def btnClearClick (s : MeasureState) : MeasureState :=
  let s := clearMeasure s
  if s.measuring then
    { s with measuring := false, btnMeasureActive := false, mapElMeasuring := false }
  else s

/-- Handler of the map event `click` at position `e`. -/
def mapClick (distance : LatLng → LatLng → ℚ) (s : MeasureState) (e : LatLng) :
    MeasureState :=
  if !s.measuring then s
  else
    let s := { s with measureLatLngs := s.measureLatLngs ++ [e] }
    let m : CircleMarker := { id := s.lastId + 1, latlng := e }
    let s := { s with lastId := m.id, mapLayers := s.mapLayers ++ [m.id] }
    let s := { s with measureMarkers := s.measureMarkers ++ [m] }
    let s := match s.measureLine with
      | some _ => s
      | none =>
        let line : Polyline := { id := s.lastId + 1, latlngs := s.measureLatLngs }
        { s with lastId := line.id, mapLayers := s.mapLayers ++ [line.id],
                 measureLine := some line }
    recomputeLength distance s

/-- Handler of the map event `dblclick`. -/
def mapDblClick (s : MeasureState) : MeasureState :=
  { s with measuring := false, btnMeasureActive := false, mapElMeasuring := false }

/-- State at start-up (line 117); the label text comes from the page. -/
def measureInit (label : String) : MeasureState :=
  { measuring := false, measureLatLngs := [], measureLine := none,
    measureMarkers := [], lenLabel := label, btnMeasureActive := false,
    mapElMeasuring := false, mapLayers := [], lastId := 0 }

/-- The four operations on the measurement tool. -/
inductive MeasureOp where
  | toggle
  | click (e : LatLng)
  | dblclick
  | clear

/-- One operation. -/
def measureStep (distance : LatLng → LatLng → ℚ) (s : MeasureState) :
    MeasureOp → MeasureState
  | MeasureOp.toggle => btnMeasureClick s
  | MeasureOp.click e => mapClick distance s e
  | MeasureOp.dblclick => mapDblClick s
  | MeasureOp.clear => btnClearClick s

/-- A sequence of operations, first to last. -/
def measureRun (distance : LatLng → LatLng → ℚ) (s : MeasureState)
    (ops : List MeasureOp) : MeasureState :=
  ops.foldl (measureStep distance) s

/-- What holds of the theme state after start-up and after every click. -/
structure ThemeInv (s : ThemeState) : Prop where
  /-- the theme is one of the two names -/
  valid : s.currentTheme = "light" ∨ s.currentTheme = "dark"
  /-- the stored theme is the current one -/
  stored : s.localStorage THEME_KEY = some s.currentTheme
  /-- the document attribute is the current theme -/
  attr : s.dataTheme = some s.currentTheme
  /-- the button, when there is one, shows the glyph of the current theme -/
  glyph : ∀ txt, s.btnThemeText = some txt →
    txt = if s.currentTheme = "light" then "☀️" else "🌙"
  /-- exactly the basemap of the current theme is on the map -/
  layer : ∀ b, s.onMap b = decide (basemaps s.currentTheme = some b)

/-- Stamps of the overlay layers owned by the measurement session. -/
def overlayStamps (s : MeasureState) : List Nat :=
  (match s.measureLine with
    | some line => [line.id]
    | none => []) ++ s.measureMarkers.map CircleMarker.id

/-- Vertices of the polyline, none when there is no polyline. -/
def lineVertices (s : MeasureState) : List LatLng :=
  match s.measureLine with
  | some line => line.latlngs
  | none => []

/-- The session invariant: one marker per point, at that point, and the
polyline (present exactly when there are points) has the points as vertices. -/
structure MeasureInv (s : MeasureState) : Prop where
  /-- markers sit at the points, in order -/
  markers : s.measureMarkers.map CircleMarker.latlng = s.measureLatLngs
  /-- a polyline has the points as vertices -/
  line : ∀ l, s.measureLine = some l → l.latlngs = s.measureLatLngs
  /-- without a polyline there are no points -/
  noLine : s.measureLine = none → s.measureLatLngs = []

/-- A storage holding only an unknown word under the sheet key. -/
def strayStorage : Storage := Storage.setItem (fun _ => none) SHEET_KEY "hidden"

/-- The theme state started on empty storage with a light colour scheme. -/
def themeStart : ThemeState :=
  { currentTheme := "light"
    localStorage := Storage.setItem (fun _ => none) THEME_KEY "light"
    dataTheme := some "light"
    btnThemeText := some "☀️"
    onMap := addBasemap (fun _ => false) Basemap.light }

/-! ## Lemmas on the scale math -/

/-- The theme read never leaves the two theme names. -/
lemma getSavedTheme_valid (localStorage : Storage) (matchMedia : Option (String → Bool)) :
    getSavedTheme localStorage matchMedia = "light" ∨
      getSavedTheme localStorage matchMedia = "dark" := by
  unfold getSavedTheme
  cases matchMedia with
  | none =>
    cases hls : localStorage THEME_KEY with
    | none => simp
    | some t =>
      by_cases ht : t = "light" ∨ t = "dark"
      · simp [ht]
      · simp [ht]
  | some mm =>
    cases hls : localStorage THEME_KEY with
    | none => by_cases hm : mm "(prefers-color-scheme: light)" = true <;> simp [hm]
    | some t =>
      by_cases ht : t = "light" ∨ t = "dark"
      · simp [ht]
      · by_cases hm : mm "(prefers-color-scheme: light)" = true <;> simp [ht, hm]

/-- A missing or empty sheet entry reads as the default. -/
lemma getSheetState_default (localStorage : Storage)
    (h : localStorage SHEET_KEY = none ∨ localStorage SHEET_KEY = some "") :
    getSheetState localStorage = "expanded" := by
  unfold getSheetState
  rcases h with h | h <;> simp [h]

/-- A valid sheet entry reads as itself. -/
lemma getSheetState_stored (localStorage : Storage) (v : String)
    (h : localStorage SHEET_KEY = some v) (hv : v = "expanded" ∨ v = "collapsed") :
    getSheetState localStorage = v := by
  unfold getSheetState
  rcases hv with hv | hv <;> subst hv <;> simp [h]

/-! ## Lemmas on the theme controller -/

/-- Start-up always succeeds and gives a state with the invariant. -/
lemma initTheme_inv (localStorage : Storage) (matchMedia : Option (String → Bool))
    (dataTheme : Option String) (btnThemeText : Option String) :
    ∃ s, initTheme localStorage matchMedia dataTheme btnThemeText = some s ∧
      ThemeInv s := by
  rcases getSavedTheme_valid localStorage matchMedia with h | h
  · refine ⟨_, by simp only [initTheme, h, basemaps]; rfl, ?_⟩
    constructor
    · left; rfl
    · simp [setThemeAttr, Storage.setItem]
    · simp [setThemeAttr]
    · intro txt
      cases btnThemeText <;> simp [setThemeAttr]
      rintro rfl
      rfl
    · intro b; cases b <;> simp [setThemeAttr, addBasemap, basemaps]
  · refine ⟨_, by simp only [initTheme, h, basemaps]; rfl, ?_⟩
    constructor
    · right; rfl
    · simp [setThemeAttr, Storage.setItem]
    · simp [setThemeAttr]
    · intro txt
      cases btnThemeText <;> simp [setThemeAttr]
      rintro rfl
      rfl
    · intro b; cases b <;> simp [setThemeAttr, addBasemap, basemaps]

/-- A click on a state with the invariant succeeds, switches to the other
theme and keeps the invariant. -/
lemma themeClick_inv (s : ThemeState) (h : ThemeInv s) :
    ∃ t, themeClick s = some t ∧ ThemeInv t ∧
      t.currentTheme = (if s.currentTheme = "light" then "dark" else "light") ∧
      t.currentTheme ≠ s.currentTheme := by
  rcases h.valid with hv | hv
  · refine ⟨_, by simp only [themeClick, hv, basemaps]; rfl, ?_, ?_, ?_⟩
    · constructor
      · right; rfl
      · simp [setThemeAttr, Storage.setItem]
      · simp [setThemeAttr]
      · intro txt
        cases hb : s.btnThemeText <;> simp [setThemeAttr, hb]
        rintro rfl
        rfl
      · intro b; cases b <;> simp [setThemeAttr, addBasemap, removeBasemap, basemaps]
    · simp [setThemeAttr, hv]
    · simp [setThemeAttr, hv]
  · refine ⟨_, by simp only [themeClick, hv, basemaps]; rfl, ?_, ?_, ?_⟩
    · constructor
      · left; rfl
      · simp [setThemeAttr, Storage.setItem]
      · simp [setThemeAttr]
      · intro txt
        cases hb : s.btnThemeText <;> simp [setThemeAttr, hb]
        rintro rfl
        rfl
      · intro b; cases b <;> simp [setThemeAttr, addBasemap, removeBasemap, basemaps]
    · simp [setThemeAttr, hv]
    · simp [setThemeAttr, hv]

/-- Every reachable theme state has the invariant. -/
lemma themeReachable_inv (s : ThemeState) (h : ThemeReachable s) : ThemeInv s := by
  induction h with
  | init ls mm a b s h =>
    obtain ⟨t, ht, hinv⟩ := initTheme_inv ls mm a b
    rw [ht] at h
    cases h
    exact hinv
  | click s t _ h ih =>
    obtain ⟨u, hu, hinv, _⟩ := themeClick_inv s ih
    rw [hu] at h
    cases h
    exact hinv

/-- Two states with the invariant and the same theme are the same as far as
the theme code writes them, given the same storage elsewhere. -/
lemma themeInv_ext (s t : ThemeState) (hs : ThemeInv s) (ht : ThemeInv t)
    (hc : t.currentTheme = s.currentTheme)
    (hst : ∀ k, k ≠ THEME_KEY → t.localStorage k = s.localStorage k)
    (hbtn : t.btnThemeText.isSome = s.btnThemeText.isSome) : t = s := by
  cases s with
  | mk c1 l1 d1 b1 o1 =>
  cases t with
  | mk c2 l2 d2 b2 o2 =>
  simp only at hc
  subst hc
  have h1 : l2 = l1 := by
    funext k
    by_cases hk : k = THEME_KEY
    · subst hk
      have a := hs.stored
      have b := ht.stored
      simp only at a b
      rw [a, b]
    · exact hst k hk
  have h2 : d2 = d1 := by
    have a := hs.attr
    have b := ht.attr
    simp only at a b
    rw [a, b]
  have h3 : b2 = b1 := by
    have a := hs.glyph
    have b := ht.glyph
    simp only at a b hbtn
    cases b1 with
    | none =>
      cases b2 with
      | none => rfl
      | some y => simp at hbtn
    | some x =>
      cases b2 with
      | none => simp at hbtn
      | some y => rw [a x rfl, b y rfl]
  have h4 : o2 = o1 := by
    funext x
    have a := hs.layer x
    have b := ht.layer x
    simp only at a b
    rw [a, b]
  subst h1 h2 h3 h4
  rfl

/-- A click writes no storage key but the theme key, and neither creates nor
removes the theme button. -/
lemma themeClick_frame (s t : ThemeState) (h : themeClick s = some t) :
    (∀ k, k ≠ THEME_KEY → t.localStorage k = s.localStorage k) ∧
      t.btnThemeText.isSome = s.btnThemeText.isSome := by
  unfold themeClick at h
  cases hb : basemaps s.currentTheme with
  | none => simp [hb] at h
  | some old =>
    cases hn : basemaps (if s.currentTheme = "light" then "dark" else "light") with
    | none => simp [hb, hn] at h
    | some new =>
      simp only [hb, hn] at h
      cases h
      constructor
      · intro k hk
        simp [setThemeAttr, Storage.setItem, hk]
      · cases hbt : s.btnThemeText <;> simp [setThemeAttr, hbt]

/-! ## Lemmas on the measurement tool -/

/-- Two removals by stamp in a row. -/
lemma filter_stamps (l ids : List Nat) (id : Nat) :
    (l.filter (fun j => j != id)).filter (fun j => !ids.contains j) =
      l.filter (fun j => !(id :: ids).contains j) := by
  rw [List.filter_filter]
  apply List.filter_congr
  intro j _
  by_cases hj : j = id
  · simp [hj]
  · have hj2 : ¬ (id = j) := fun h => hj h.symm
    simp [hj, hj2, List.contains_cons]

/-- Removing layers from the map touches only the layer list. -/
lemma foldl_removeLayer (ms : List CircleMarker) :
    ∀ s : MeasureState,
      ms.foldl (fun st m => removeLayer m.id st) s =
        { s with mapLayers :=
            s.mapLayers.filter (fun j => !(ms.map CircleMarker.id).contains j) } := by
  induction ms with
  | nil => intro s; simp
  | cons m ms ih =>
    intro s
    simp only [List.foldl_cons]
    rw [ih]
    simp only [removeLayer, List.map_cons, filter_stamps]

/-- Function `clearMeasure` written out field by field. -/
lemma clearMeasure_eq (s : MeasureState) :
    clearMeasure s =
      { s with measureLatLngs := [], lenLabel := "0 m", measureLine := none,
               measureMarkers := [],
               mapLayers := s.mapLayers.filter (fun j => !(overlayStamps s).contains j) } := by
  unfold clearMeasure overlayStamps
  cases hl : s.measureLine with
  | none => simp [foldl_removeLayer, hl]
  | some line =>
    simp only [hl, foldl_removeLayer]
    simp only [removeLayer, filter_stamps, List.singleton_append]

/-- The start state has the invariant. -/
lemma measureInit_inv (label : String) : MeasureInv (measureInit label) :=
  ⟨rfl, fun _ h => by simp [measureInit] at h, fun _ => rfl⟩

/-- Every operation keeps the invariant. -/
lemma measureStep_inv (distance : LatLng → LatLng → ℚ) (s : MeasureState)
    (op : MeasureOp) (h : MeasureInv s) : MeasureInv (measureStep distance s op) := by
  cases op with
  | toggle => exact ⟨h.markers, h.line, h.noLine⟩
  | dblclick => exact ⟨h.markers, h.line, h.noLine⟩
  | clear =>
    simp only [measureStep, btnClearClick, clearMeasure_eq]
    split <;> exact ⟨rfl, fun _ hl => by simp at hl, fun _ => rfl⟩
  | click e =>
    simp only [measureStep, mapClick]
    cases hm : s.measuring with
    | false => simpa using h
    | true =>
      cases hl : s.measureLine with
      | none =>
        refine ⟨?_, ?_, ?_⟩
        · simp [recomputeLength, hl, h.markers]
        · intro l; simp [recomputeLength, hl]; intro hl2; rw [← hl2]
        · simp [recomputeLength, hl]
      | some line =>
        refine ⟨?_, ?_, ?_⟩
        · simp [recomputeLength, hl, h.markers]
        · intro l; simp [recomputeLength, hl]; intro hl2; rw [← hl2]
        · simp [recomputeLength, hl]

/-- Every run of operations from a state with the invariant ends in one. -/
lemma measureRun_inv (distance : LatLng → LatLng → ℚ) (ops : List MeasureOp) :
    ∀ s : MeasureState, MeasureInv s → MeasureInv (measureRun distance s ops) := by
  induction ops with
  | nil => intro s h; exact h
  | cons op ops ih =>
    intro s h
    exact ih _ (measureStep_inv distance s op h)

/-! ## The claims -/

/-- C5: from every measurement state the clear button leaves no points, no
markers, no polyline, the label "0 m" and the mode idle; the stamps of the
former polyline and markers are off the map. -/
theorem btnClearClick_resets (s : MeasureState) :
    (btnClearClick s).measureLatLngs = [] ∧
      (btnClearClick s).measureMarkers = [] ∧
      (btnClearClick s).measureLine = none ∧
      (btnClearClick s).lenLabel = "0 m" ∧
      (btnClearClick s).measuring = false ∧
      (btnClearClick s).mapLayers =
        s.mapLayers.filter (fun j => !(overlayStamps s).contains j) := by
  unfold btnClearClick
  rw [clearMeasure_eq]
  cases hm : s.measuring <;> simp [hm]

/-- C7 fails on the sheet state: with the word "hidden" stored under the sheet
key, `getSheetState` returns "hidden", neither "expanded" nor "collapsed". -/
theorem getSheetState_stray :
    strayStorage SHEET_KEY = some "hidden" ∧
      getSheetState strayStorage = "hidden" ∧
      getSheetState strayStorage ≠ "expanded" ∧
      getSheetState strayStorage ≠ "collapsed" := by
  decide

/-- C8: in every state reached after start-up the theme is light or dark, it is
the stored and the displayed theme, and exactly its basemap is on the map; one
click succeeds and switches to the other theme; a second click succeeds and
gives back the state before the first. -/
theorem themeClick_twice (s : ThemeState) (h : ThemeReachable s) :
    (s.currentTheme = "light" ∨ s.currentTheme = "dark") ∧
      s.localStorage THEME_KEY = some s.currentTheme ∧
      s.dataTheme = some s.currentTheme ∧
      (∀ b, s.onMap b = decide (basemaps s.currentTheme = some b)) ∧
      ∃ s1 s2, themeClick s = some s1 ∧ themeClick s1 = some s2 ∧
        s1.currentTheme = (if s.currentTheme = "light" then "dark" else "light") ∧
        s1.currentTheme ≠ s.currentTheme ∧
        s1.localStorage THEME_KEY = some s1.currentTheme ∧
        s1.dataTheme = some s1.currentTheme ∧
        (∀ b, s1.onMap b = decide (basemaps s1.currentTheme = some b)) ∧
        s2 = s := by
  have hinv := themeReachable_inv s h
  obtain ⟨s1, h1, hinv1, hc1, hne1⟩ := themeClick_inv s hinv
  obtain ⟨s2, h2, hinv2, hc2, _⟩ := themeClick_inv s1 hinv1
  refine ⟨hinv.valid, hinv.stored, hinv.attr, hinv.layer, s1, s2, h1, h2, hc1, hne1,
    hinv1.stored, hinv1.attr, hinv1.layer, ?_⟩
  apply themeInv_ext s s2 hinv hinv2
  · rw [hc2, hc1]
    rcases hinv.valid with hv | hv <;> simp [hv]
  · intro k hk
    rw [(themeClick_frame s1 s2 h2).1 k hk, (themeClick_frame s s1 h1).1 k hk]
  · rw [(themeClick_frame s1 s2 h2).2, (themeClick_frame s s1 h1).2]

/-- C8 on the state started from empty storage with a light colour scheme. -/
theorem themeClick_twice_witness :
    ThemeReachable themeStart ∧
      ∃ s1 s2, themeClick themeStart = some s1 ∧ themeClick s1 = some s2 ∧
        s1.currentTheme = "dark" ∧ s2 = themeStart := by
  have hr : ThemeReachable themeStart :=
    ThemeReachable.init (fun _ => none) (some (fun _ => true)) none (some "") themeStart rfl
  obtain ⟨_, _, _, _, s1, s2, h1, h2, hc, _, _, _, _, he⟩ := themeClick_twice themeStart hr
  exact ⟨hr, s1, s2, h1, h2, by rw [hc]; rfl, he⟩

/-- C10: after any sequence of toggle, click, double click and clear from the
start state there is one marker per point, each at its point, and the polyline
has exactly the points as vertices, there being no points when it is absent. -/
theorem measureRun_invariant (distance : LatLng → LatLng → ℚ) (label : String)
    (ops : List MeasureOp) :
    (measureRun distance (measureInit label) ops).measureMarkers.length =
        (measureRun distance (measureInit label) ops).measureLatLngs.length ∧
      (measureRun distance (measureInit label) ops).measureMarkers.map
          CircleMarker.latlng =
        (measureRun distance (measureInit label) ops).measureLatLngs ∧
      lineVertices (measureRun distance (measureInit label) ops) =
        (measureRun distance (measureInit label) ops).measureLatLngs ∧
      (lineVertices (measureRun distance (measureInit label) ops)).length =
        (measureRun distance (measureInit label) ops).measureLatLngs.length := by
  have hinv := measureRun_inv distance ops (measureInit label) (measureInit_inv label)
  generalize measureRun distance (measureInit label) ops = t at hinv
  have hv : lineVertices t = t.measureLatLngs := by
    unfold lineVertices
    cases hl : t.measureLine with
    | none => exact (hinv.noLine hl).symm
    | some l => exact hinv.line l hl
  refine ⟨?_, hinv.markers, hv, by rw [hv]⟩
  rw [← hinv.markers, List.length_map]

end Visualizador
